import Mathlib

/-!
Verification of the OpenRouterLLMGUI desktop utility.

This file gives a shallow embedding, in Lean 4, of the core logic of the
repository (`gui.py`, `models.py`, `api.py`, `ui_windows.py`) and proves
properties of the embedded code:

* the global keystroke buffer and matcher (`DesktopUtilitiesApp.on_key_press`,
  gui.py lines 1127-1159), including the numeric `__N` alias check
  (`re.search(r'__(\d+)$', buffer)`) and the first-match-wins shortcut scan;
* the shortcut-table insertion routine (`DesktopUtilitiesApp.add_shortcut`,
  gui.py lines 633-645);
* the pydantic parameter validator (`OpenRouterAPIParameters`, models.py
  lines 31-138) together with `model_dump(exclude_none=True)` key selection;
* the chat-request entry point (`call_openrouter_api`, api.py lines 15-41),
  with Python list aliasing made explicit through a small heap of list cells;
* the profile-saving routine (`DesktopUtilitiesApp.add_llm_profile`,
  gui.py lines 878-914).

Conventions: Python strings that are scanned character by character are
`List Char`; decimal digits are modelled as the ASCII digits `'0'..'9'`
(the practically relevant subset of the regex class `\d`); Python floats
entering the validator are modelled as rationals, since the validator only
compares them against bounds.
-/

/-- `int(s)` on a run of decimal digit characters. -/
def digitsToNat (ds : List Char) : Nat :=
  ds.foldl (fun acc c => acc * 10 + (c.toNat - 48)) 0

/-- One attempt of `re.search(r'__(\d+)$', buffer)` at a fixed start position:
the pattern matches here exactly when the remaining text is `__` followed by a
nonempty run of digits that reaches the end of the buffer.  On success returns
(parsed number, length of the full matched `__N` substring). -/
def matchHere : List Char → Option (Nat × Nat)
  | [] => none
  | [_] => none
  | a :: b :: ds =>
      if a = '_' ∧ b = '_' ∧ ds ≠ [] ∧ ds.all Char.isDigit = true then
        some (digitsToNat ds, ds.length + 2)
      else none

/-- `re.search(r'__(\d+)$', buffer)`: scan start positions left to right and
return the first (hence longest, because of the `$` anchor) match. -/
def aliasSearch : List Char → Option (Nat × Nat)
  | [] => none
  | c :: rest =>
      match matchHere (c :: rest) with
      | some r => some r
      | none => aliasSearch rest

/-- One entry of `self.shortcuts[trigger] = {"output": ..., "enabled": BooleanVar}`. -/
structure Shortcut where
  output : String
  enabled : Bool
deriving DecidableEq

/-- One value of `self.llm_configs[name] = {"api_key": ..., "model": ...}`. -/
structure ModelConfig where
  api_key : String
  model : String
deriving DecidableEq

/-- The mutable state of `DesktopUtilitiesApp` read by `on_key_press`:
the rolling key buffer, the (insertion-ordered) shortcut dict and the
(insertion-ordered) model-config dict. -/
structure AppState where
  buffer : List Char
  shortcuts : List (List Char × Shortcut)
  llm_configs : List (String × ModelConfig)
deriving DecidableEq

/-- The externally visible result of one `on_key_press` call: how many
synthetic backspaces are emitted and what follows them. -/
inductive Effect
  | openWindow (erase : Nat) (config : String)
  | inject (erase : Nat) (text : String)
deriving DecidableEq

/-- A key event as classified by the source's `try: key.char / except
AttributeError` dispatch: printable keys carry a character, space and
backspace are the two special-cased `keyboard.Key` members, and every other
non-printable key falls into the final `else`. -/
inductive Key
  | char (c : Char)
  | space
  | backspace
  | other

/-- The `for trigger, data in self.shortcuts.items()` loop body condition
(gui.py 1151-1152): first enabled entry whose trigger is a suffix of the
buffer wins. -/
def firstMatch : List (List Char × Shortcut) → List Char → Option (List Char × String)
  | [], _ => none
  | (t, s) :: rest, buf =>
      if s.enabled && t.isSuffixOf buf then some (t, s.output) else firstMatch rest buf

/-- gui.py lines 1151-1159: the shortcut scan, firing erase+inject and
resetting the buffer on the first enabled suffix match. -/
def shortcutScan (st : AppState) : AppState × Option Effect :=
  match firstMatch st.shortcuts st.buffer with
  | some (t, out) => ({ st with buffer := [] }, some (Effect.inject t.length out))
  | none => (st, none)

/-- gui.py lines 1136-1159: match detection on the current buffer.  The
numeric-alias check runs first; if the regex matches and the parsed index is
in `[1, len(config_names)]` the alias consumes the event (erase the matched
`__N`, open the query window for the selected config, reset the buffer) and
the shortcut loop is never reached; otherwise the shortcut scan runs on the
unchanged buffer. -/
def processBuffer (st : AppState) : AppState × Option Effect :=
  match aliasSearch st.buffer with
  | some (n, len) =>
      let config_names := st.llm_configs.map Prod.fst
      if 1 ≤ n ∧ n ≤ config_names.length then
        ({ st with buffer := [] },
         some (Effect.openWindow len (config_names.getD (n - 1) "")))
      else shortcutScan st
  | none => shortcutScan st

/-- gui.py lines 1127-1159, `DesktopUtilitiesApp.on_key_press`.  Printable
keys append their character and then run match detection.  Space appends a
literal space, backspace drops the last buffer character, and any other
non-printable key clears the buffer; all three of these return from inside
the `except AttributeError` block, before match detection. -/
def on_key_press (st : AppState) (k : Key) : AppState × Option Effect :=
  match k with
  | Key.char c => processBuffer { st with buffer := st.buffer ++ [c] }
  | Key.space => ({ st with buffer := st.buffer ++ [' '] }, none)
  | Key.backspace => ({ st with buffer := st.buffer.dropLast }, none)
  | Key.other => ({ st with buffer := [] }, none)

/-! ### Helper lemmas about the matcher -/

theorem matchHere_none_of_underscore {l : List Char} (h : '_' ∈ l.drop 2) :
    matchHere l = none := by
  match l with
  | [] => rfl
  | [a] => rfl
  | a :: b :: ds =>
    have hds : '_' ∈ ds := by simpa using h
    simp only [matchHere]
    rw [if_neg]
    rintro ⟨-, -, -, hall⟩
    rw [List.all_eq_true] at hall
    exact absurd (hall _ hds) (by decide)

theorem aliasSearch_append (P D : List Char) (hne : D ≠ [])
    (hd : D.all Char.isDigit = true) :
    aliasSearch (P ++ '_' :: '_' :: D) = some (digitsToNat D, D.length + 2) := by
  induction P with
  | nil =>
      have hm : matchHere ('_' :: '_' :: D) = some (digitsToNat D, D.length + 2) := by
        simp [matchHere, hne, hd]
      simp [aliasSearch, hm]
  | cons c P ih =>
      have hm : matchHere (c :: (P ++ '_' :: '_' :: D)) = none := by
        apply matchHere_none_of_underscore
        cases P with
        | nil => simp
        | cons x P' => simp
      simpa [aliasSearch, hm] using ih

theorem aliasSearch_nil : aliasSearch [] = none := rfl

theorem firstMatch_append (T1 T2 : List (List Char × Shortcut)) (t : List Char)
    (s : Shortcut) (buf : List Char) (hen : s.enabled = true)
    (hsuf : t.isSuffixOf buf = true)
    (hfirst : ∀ p ∈ T1, p.2.enabled = true → p.1.isSuffixOf buf = false) :
    firstMatch (T1 ++ (t, s) :: T2) buf = some (t, s.output) := by
  induction T1 with
  | nil => simp [firstMatch, hen, hsuf]
  | cons q T1 ih =>
      obtain ⟨tq, sq⟩ := q
      have hq : sq.enabled = true → tq.isSuffixOf buf = false :=
        hfirst (tq, sq) (List.mem_cons_self _ _)
      have ihr := ih (fun p hp => hfirst p (List.mem_cons_of_mem _ hp))
      cases he : sq.enabled with
      | false => simpa [firstMatch, he] using ihr
      | true => simpa [firstMatch, he, hq he] using ihr

theorem firstMatch_isSome_of_mem (table : List (List Char × Shortcut))
    (buf t : List Char) (s : Shortcut) (hmem : (t, s) ∈ table)
    (hen : s.enabled = true) (hsuf : t.isSuffixOf buf = true) :
    (firstMatch table buf).isSome = true := by
  induction table with
  | nil => cases hmem
  | cons q rest ih =>
      obtain ⟨tq, sq⟩ := q
      by_cases hc : (sq.enabled && tq.isSuffixOf buf) = true
      · simp [firstMatch, hc]
      · rcases List.mem_cons.mp hmem with heq | hmem'
        · exfalso
          obtain ⟨h1, h2⟩ := Prod.mk.injEq .. ▸ heq
          apply hc
          rw [Bool.and_eq_true]
          exact ⟨h2 ▸ hen, h1 ▸ hsuf⟩
        · simpa [firstMatch, hc] using ih hmem'

theorem isSuffixOf_nil_eq_false (t : List Char) (h : t ≠ []) :
    t.isSuffixOf ([] : List Char) = false := by
  rw [Bool.eq_false_iff]
  intro hs
  exact h (List.suffix_nil.mp (List.isSuffixOf_iff_suffix.mp hs))

theorem firstMatch_nil_buffer (table : List (List Char × Shortcut))
    (h : ∀ p ∈ table, p.1 ≠ []) : firstMatch table [] = none := by
  induction table with
  | nil => rfl
  | cons q rest ih =>
      obtain ⟨tq, sq⟩ := q
      have ht : tq ≠ [] := h (tq, sq) (List.mem_cons_self _ _)
      have : tq.isSuffixOf ([] : List Char) = false := isSuffixOf_nil_eq_false tq ht
      simpa [firstMatch, this] using ih (fun p hp => h p (List.mem_cons_of_mem _ hp))

/-! ### Claims about the matcher -/

/-- C1: if the buffer ends with a (necessarily maximal) run `__N` with
`1 ≤ N ≤ len(llm_configs)`, match detection fires the alias action: it erases
the full matched `__N` substring, opens the query window for the config at
1-based position `N`, resets the buffer to empty, and never reaches the
shortcut scan (the result does not depend on the shortcut table). -/
theorem alias_in_range_consumes_event (st : AppState) (P D : List Char)
    (hbuf : st.buffer = P ++ '_' :: '_' :: D) (hne : D ≠ [])
    (hd : D.all Char.isDigit = true) (h1 : 1 ≤ digitsToNat D)
    (h2 : digitsToNat D ≤ st.llm_configs.length) :
    processBuffer st =
      ({ st with buffer := [] },
       some (Effect.openWindow (D.length + 2)
         ((st.llm_configs.map Prod.fst).getD (digitsToNat D - 1) ""))) := by
  have ha : aliasSearch st.buffer = some (digitsToNat D, D.length + 2) := by
    rw [hbuf]
    exact aliasSearch_append P D hne hd
  have hlen : digitsToNat D ≤ (st.llm_configs.map Prod.fst).length := by
    simpa using h2
  simp only [processBuffer, ha]
  rw [if_pos ⟨h1, hlen⟩]

theorem alias_in_range_consumes_event_witness :
    processBuffer
        { buffer := ['_', '_', '1'], shortcuts := [],
          llm_configs := [("cfg", { api_key := "k", model := "m" })] } =
      ({ buffer := [], shortcuts := [],
         llm_configs := [("cfg", { api_key := "k", model := "m" })] },
       some (Effect.openWindow 3 "cfg")) := by
  have h := alias_in_range_consumes_event
    { buffer := ['_', '_', '1'], shortcuts := [],
      llm_configs := [("cfg", { api_key := "k", model := "m" })] }
    [] ['1'] rfl (by decide) (by decide) (by decide) (by decide)
  simpa using h

/-- C2: the shortcut scan walks the table in insertion order, skips disabled
entries, and fires on the first enabled entry whose trigger is a suffix of
the buffer: it erases that trigger's length, injects that entry's output and
resets the buffer; the entries after the winner (`T2`) are never consulted,
even if one of them is a longer suffix of the buffer. -/
theorem shortcut_first_match_wins (st : AppState)
    (T1 T2 : List (List Char × Shortcut)) (t : List Char) (s : Shortcut)
    (htab : st.shortcuts = T1 ++ (t, s) :: T2) (hen : s.enabled = true)
    (hsuf : t.isSuffixOf st.buffer = true)
    (hfirst : ∀ p ∈ T1, p.2.enabled = true → p.1.isSuffixOf st.buffer = false) :
    shortcutScan st = ({ st with buffer := [] }, some (Effect.inject t.length s.output)) := by
  unfold shortcutScan
  rw [htab, firstMatch_append T1 T2 t s st.buffer hen hsuf hfirst]

theorem shortcut_first_match_wins_witness :
    shortcutScan
        { buffer := ['b', 'a'],
          shortcuts := [(['b', 'a'], { output := "skipped", enabled := false }),
                        (['a'], { output := "won", enabled := true }),
                        (['b', 'a'], { output := "longer", enabled := true })],
          llm_configs := [] } =
      ({ buffer := [],
         shortcuts := [(['b', 'a'], { output := "skipped", enabled := false }),
                       (['a'], { output := "won", enabled := true }),
                       (['b', 'a'], { output := "longer", enabled := true })],
         llm_configs := [] },
       some (Effect.inject 1 "won")) := by
  have h := shortcut_first_match_wins
    { buffer := ['b', 'a'],
      shortcuts := [(['b', 'a'], { output := "skipped", enabled := false }),
                    (['a'], { output := "won", enabled := true }),
                    (['b', 'a'], { output := "longer", enabled := true })],
      llm_configs := [] }
    [(['b', 'a'], { output := "skipped", enabled := false })]
    [(['b', 'a'], { output := "longer", enabled := true })]
    ['a'] { output := "won", enabled := true } rfl rfl (by decide)
    (by
      intro p hp hpe
      simp only [List.mem_singleton] at hp
      rw [hp] at hpe
      cases hpe)
  simpa using h

theorem shortcutScan_fires (st : AppState)
    (h : ∃ t s, (t, s) ∈ st.shortcuts ∧ s.enabled = true ∧
          t.isSuffixOf st.buffer = true) :
    (shortcutScan st).2.isSome = true ∧ (shortcutScan st).1.buffer = [] := by
  obtain ⟨t, s, hmem, hen, hsuf⟩ := h
  have hs := firstMatch_isSome_of_mem st.shortcuts st.buffer t s hmem hen hsuf
  obtain ⟨r, hr⟩ := Option.isSome_iff_exists.mp hs
  obtain ⟨tr, outr⟩ := r
  simp [shortcutScan, hr]

/-- C3 counterexample: a space event appends the space to the buffer but
returns before match detection, so even when the resulting buffer ends with
an enabled trigger (here the single-space trigger on an empty prior buffer),
no erase/injection effect fires on that space event. -/
theorem space_event_skips_match_detection_cex :
    (([' '], ({ output := "X", enabled := true } : Shortcut)) ∈
        AppState.shortcuts
          { buffer := [], shortcuts := [([' '], { output := "X", enabled := true })],
            llm_configs := [] }) ∧
    ([' '].isSuffixOf
        ((on_key_press
            { buffer := [], shortcuts := [([' '], { output := "X", enabled := true })],
              llm_configs := [] } Key.space).1.buffer)) = true ∧
    (on_key_press
        { buffer := [], shortcuts := [([' '], { output := "X", enabled := true })],
          llm_configs := [] } Key.space).2 = none := by decide

/-- C3 amended: match detection runs on the extended buffer only for
printable-character events.  A space event appends a literal space and
returns before match detection, producing no effect.  For a printable event,
if the extended buffer carries an in-range `__N` alias, or ends with some
enabled trigger, a match fires on that same event (the effect is non-empty
and the buffer resets). -/
theorem match_detection_only_on_printable (st : AppState) (c : Char) :
    on_key_press st (Key.char c) = processBuffer { st with buffer := st.buffer ++ [c] } ∧
    on_key_press st Key.space = ({ st with buffer := st.buffer ++ [' '] }, none) ∧
    (∀ P D, st.buffer ++ [c] = P ++ '_' :: '_' :: D → D ≠ [] →
      D.all Char.isDigit = true → 1 ≤ digitsToNat D →
      digitsToNat D ≤ st.llm_configs.length →
      ((on_key_press st (Key.char c)).2.isSome = true ∧
       (on_key_press st (Key.char c)).1.buffer = [])) ∧
    (∀ t s, (t, s) ∈ st.shortcuts → s.enabled = true →
      t.isSuffixOf (st.buffer ++ [c]) = true →
      ((on_key_press st (Key.char c)).2.isSome = true ∧
       (on_key_press st (Key.char c)).1.buffer = [])) := by
  refine ⟨rfl, rfl, ?_, ?_⟩
  · intro P D hbuf hne hd h1 h2
    have ha : aliasSearch (st.buffer ++ [c]) = some (digitsToNat D, D.length + 2) := by
      rw [hbuf]
      exact aliasSearch_append P D hne hd
    have hkey : processBuffer { st with buffer := st.buffer ++ [c] } =
        ({ st with buffer := [] },
         some (Effect.openWindow (D.length + 2)
           ((st.llm_configs.map Prod.fst).getD (digitsToNat D - 1) ""))) := by
      simp only [processBuffer, ha]
      rw [if_pos ⟨h1, by simpa using h2⟩]
    show (processBuffer { st with buffer := st.buffer ++ [c] }).2.isSome = true ∧
      (processBuffer { st with buffer := st.buffer ++ [c] }).1.buffer = []
    rw [hkey]
    exact ⟨rfl, rfl⟩
  · intro t s hmem hen hsuf
    have hfire := shortcutScan_fires { st with buffer := st.buffer ++ [c] }
      ⟨t, s, hmem, hen, hsuf⟩
    show (processBuffer { st with buffer := st.buffer ++ [c] }).2.isSome = true ∧
      (processBuffer { st with buffer := st.buffer ++ [c] }).1.buffer = []
    cases ha : aliasSearch (st.buffer ++ [c]) with
    | none =>
        have hred : processBuffer { st with buffer := st.buffer ++ [c] } =
            shortcutScan { st with buffer := st.buffer ++ [c] } := by
          simp only [processBuffer, ha]
        rw [hred]
        exact hfire
    | some r =>
        obtain ⟨n, len⟩ := r
        by_cases hin : 1 ≤ n ∧ n ≤ (st.llm_configs.map Prod.fst).length
        · have hred : processBuffer { st with buffer := st.buffer ++ [c] } =
              ({ st with buffer := [] },
               some (Effect.openWindow len
                 ((st.llm_configs.map Prod.fst).getD (n - 1) ""))) := by
            simp only [processBuffer, ha]
            rw [if_pos hin]
          rw [hred]
          exact ⟨rfl, rfl⟩
        · have hred : processBuffer { st with buffer := st.buffer ++ [c] } =
              shortcutScan { st with buffer := st.buffer ++ [c] } := by
            simp only [processBuffer, ha]
            rw [if_neg hin]
          rw [hred]
          exact hfire

theorem match_detection_only_on_printable_witness :
    ((on_key_press
        { buffer := ['a'], shortcuts := [(['a', 'b'], { output := "out", enabled := true })],
          llm_configs := [] } (Key.char 'b')).2.isSome = true) ∧
    (on_key_press
        { buffer := ['a'], shortcuts := [(['a', 'b'], { output := "out", enabled := true })],
          llm_configs := [] } (Key.char 'b')).1.buffer = [] :=
  (match_detection_only_on_printable
    { buffer := ['a'], shortcuts := [(['a', 'b'], { output := "out", enabled := true })],
      llm_configs := [] } 'b').2.2.2
    ['a', 'b'] { output := "out", enabled := true } (by decide) rfl (by decide)

/-- C4: the per-key buffer transitions of `on_key_press`: a printable key
appends its character and hands the extended buffer to match detection; space
appends a literal space; backspace drops the last character and is a no-op on
an empty buffer; every other non-printable key clears the buffer and produces
no effect; and matching against an empty buffer matches neither a non-empty
trigger nor the alias pattern. -/
theorem key_buffer_transitions (st : AppState) :
    (∀ c, on_key_press st (Key.char c) =
      processBuffer { st with buffer := st.buffer ++ [c] }) ∧
    (on_key_press st Key.space).1.buffer = st.buffer ++ [' '] ∧
    on_key_press st Key.backspace = ({ st with buffer := st.buffer.dropLast }, none) ∧
    (st.buffer = [] → on_key_press st Key.backspace = (st, none)) ∧
    on_key_press st Key.other = ({ st with buffer := [] }, none) ∧
    (∀ table : List (List Char × Shortcut),
      (∀ p ∈ table, p.1 ≠ []) → firstMatch table [] = none) ∧
    aliasSearch [] = none := by
  refine ⟨fun c => rfl, rfl, rfl, ?_, rfl, firstMatch_nil_buffer, rfl⟩
  intro h
  obtain ⟨b, sc, cfg⟩ := st
  simp only at h
  subst h
  rfl

theorem key_buffer_transitions_witness :
    on_key_press { buffer := [], shortcuts := [], llm_configs := [] } Key.backspace =
      ({ buffer := [], shortcuts := [], llm_configs := [] }, none) :=
  (key_buffer_transitions { buffer := [], shortcuts := [], llm_configs := [] }).2.2.2.1 rfl

/-- C5: when the buffer ends in `__N` with `N` outside `[1, len(llm_configs)]`,
the alias check does not consume the event: match detection reduces to the
shortcut scan on the very same buffer, and if no shortcut matches either, the
buffer is left unchanged and no effect fires. -/
theorem alias_out_of_range_falls_through (st : AppState) (P D : List Char)
    (hbuf : st.buffer = P ++ '_' :: '_' :: D) (hne : D ≠ [])
    (hd : D.all Char.isDigit = true)
    (hrange : ¬(1 ≤ digitsToNat D ∧ digitsToNat D ≤ st.llm_configs.length)) :
    processBuffer st = shortcutScan st ∧
    (firstMatch st.shortcuts st.buffer = none → processBuffer st = (st, none)) := by
  have ha : aliasSearch st.buffer = some (digitsToNat D, D.length + 2) := by
    rw [hbuf]
    exact aliasSearch_append P D hne hd
  have hmain : processBuffer st = shortcutScan st := by
    simp only [processBuffer, ha]
    rw [if_neg]
    simpa using hrange
  refine ⟨hmain, fun hfm => ?_⟩
  rw [hmain]
  simp [shortcutScan, hfm]

theorem alias_out_of_range_falls_through_witness :
    processBuffer
        { buffer := ['_', '_', '9', '9'], shortcuts := [],
          llm_configs := [("a", { api_key := "k", model := "m" }),
                          ("b", { api_key := "k", model := "m" })] } =
      ({ buffer := ['_', '_', '9', '9'], shortcuts := [],
         llm_configs := [("a", { api_key := "k", model := "m" }),
                         ("b", { api_key := "k", model := "m" })] }, none) :=
  (alias_out_of_range_falls_through
    { buffer := ['_', '_', '9', '9'], shortcuts := [],
      llm_configs := [("a", { api_key := "k", model := "m" }),
                      ("b", { api_key := "k", model := "m" })] }
    [] ['9', '9'] rfl (by decide) (by decide) (by decide)).2 rfl

/-! ### Trigger-table insertion (gui.py 633-645) -/

/-- The two failure modes of `add_shortcut`: the "Input Error" warning for an
empty trigger or output, and the "Duplicate Error" for an existing trigger. -/
inductive AddShortcutError
  | inputError
  | duplicateError
deriving DecidableEq

/-- gui.py lines 633-645, `DesktopUtilitiesApp.add_shortcut`: reject empty
fields, then reject an existing trigger, otherwise insert the new entry at
the end of the (insertion-ordered) dict with `enabled = True`.  Returns the
resulting table together with the error raised, if any; the early returns of
the source leave the table untouched. -/
def add_shortcut (shortcuts : List (List Char × Shortcut)) (trigger : List Char)
    (output : String) : List (List Char × Shortcut) × Option AddShortcutError :=
  if trigger = [] ∨ output = "" then (shortcuts, some AddShortcutError.inputError)
  else if (shortcuts.map Prod.fst).contains trigger then
    (shortcuts, some AddShortcutError.duplicateError)
  else (shortcuts ++ [(trigger, { output := output, enabled := true })], none)

/-! ### The pydantic parameter validator (models.py 31-138) -/

/-- `tool_choice: Optional[Union[str, ToolChoice]]`: either a bare string or
a `{type, function: {name}}` object whose `type` must be the literal
`"function"`. -/
inductive ToolChoiceV
  | str (s : String)
  | fn (type : String) (name : String)
deriving DecidableEq

/-- The candidate settings mapping handed to `OpenRouterAPIParameters(**...)`.
`none` means the key is absent from the dict, so the pydantic default applies.
Numeric floats are modelled as rationals; `verbosity`/`reasoning` arrive as
strings to be checked against the enum values; `response_format` carries the
`type` entry of the `{"type": ...}` object; `system_message` is the extra key
read by `call_openrouter_api` and ignored by the pydantic model. -/
structure ParamInput where
  temperature : Option ℚ := none
  top_p : Option ℚ := none
  top_k : Option Int := none
  frequency_penalty : Option ℚ := none
  presence_penalty : Option ℚ := none
  repetition_penalty : Option ℚ := none
  min_p : Option ℚ := none
  top_a : Option ℚ := none
  seed : Option Int := none
  max_tokens : Option Int := none
  logit_bias : Option (List (String × ℚ)) := none
  logprobs : Option Bool := none
  top_logprobs : Option Int := none
  response_format : Option String := none
  structured_outputs : Option Bool := none
  stop : Option (List String) := none
  tools : Option (List (List (String × String))) := none
  tool_choice : Option ToolChoiceV := none
  parallel_tool_calls : Option Bool := none
  verbosity : Option String := none
  reasoning : Option String := none
  system_message : Option String := none
deriving DecidableEq

/-- The validated pydantic model instance (models.py 31-138): each field holds
the supplied value when the key was present, otherwise the declared default
(`1.0` for temperature, `1.0` for top_p, `0` for top_k, `0.0` for the
penalties' defaults, `1.0` for repetition_penalty, `0.0` for min_p/top_a,
`True` for parallel_tool_calls, `"medium"` for verbosity, and `None` for the
rest). -/
structure OpenRouterAPIParameters where
  temperature : Option ℚ
  top_p : Option ℚ
  top_k : Option Int
  frequency_penalty : Option ℚ
  presence_penalty : Option ℚ
  repetition_penalty : Option ℚ
  min_p : Option ℚ
  top_a : Option ℚ
  seed : Option Int
  max_tokens : Option Int
  logit_bias : Option (List (String × ℚ))
  logprobs : Option Bool
  top_logprobs : Option Int
  response_format : Option String
  structured_outputs : Option Bool
  stop : Option (List String)
  tools : Option (List (List (String × String)))
  tool_choice : Option ToolChoiceV
  parallel_tool_calls : Option Bool
  verbosity : Option String
  reasoning : Option String
deriving DecidableEq

/-- One `Field(ge=lo, le=hi)` bounds check on an optional rational: absent
values pass, present values must lie in `[lo, hi]`.  Returns the offending
field name, or nothing. -/
def checkRange (name : String) (lo hi : ℚ) : Option ℚ → List String
  | none => []
  | some q => if lo ≤ q ∧ q ≤ hi then [] else [name]

/-- `Field(ge=lo)` on an optional integer. -/
def checkIntMin (name : String) (lo : Int) : Option Int → List String
  | none => []
  | some n => if lo ≤ n then [] else [name]

/-- `Field(ge=lo, le=hi)` on an optional integer. -/
def checkIntRange (name : String) (lo hi : Int) : Option Int → List String
  | none => []
  | some n => if lo ≤ n ∧ n ≤ hi then [] else [name]

/-- Membership in the `VerbosityLevel`/`ReasoningLevel` enum
`{low, medium, high}`. -/
def checkEnum (name : String) : Option String → List String
  | none => []
  | some v => if v = "low" ∨ v = "medium" ∨ v = "high" then [] else [name]

/-- `ResponseFormat.type: Literal["json_object"]`. -/
def checkLiteralJson (name : String) : Option String → List String
  | none => []
  | some v => if v = "json_object" then [] else [name]

/-- `ToolChoice.type: Literal["function"]` (the bare-string alternative of
the union always passes). -/
def checkToolChoice (name : String) : Option ToolChoiceV → List String
  | none => []
  | some (ToolChoiceV.str _) => []
  | some (ToolChoiceV.fn ty _) => if ty = "function" then [] else [name]

/-- All constraint violations of a candidate settings mapping, in field
declaration order, as pydantic collects them into one `ValidationError`. -/
def validationErrors (inp : ParamInput) : List String :=
  checkRange "temperature" 0 2 inp.temperature ++
  checkRange "top_p" 0 1 inp.top_p ++
  checkIntMin "top_k" 0 inp.top_k ++
  checkRange "frequency_penalty" (-2) 2 inp.frequency_penalty ++
  checkRange "presence_penalty" (-2) 2 inp.presence_penalty ++
  checkRange "repetition_penalty" 0 2 inp.repetition_penalty ++
  checkRange "min_p" 0 1 inp.min_p ++
  checkRange "top_a" 0 1 inp.top_a ++
  checkIntMin "max_tokens" 1 inp.max_tokens ++
  checkIntRange "top_logprobs" 0 20 inp.top_logprobs ++
  checkLiteralJson "response_format" inp.response_format ++
  checkToolChoice "tool_choice" inp.tool_choice ++
  checkEnum "verbosity" inp.verbosity ++
  checkEnum "reasoning" inp.reasoning

/-- The model instance built once validation passed: supplied values are
kept, absent keys receive the declared defaults. -/
def buildParams (inp : ParamInput) : OpenRouterAPIParameters :=
  { temperature := some (inp.temperature.getD 1)
    top_p := some (inp.top_p.getD 1)
    top_k := some (inp.top_k.getD 0)
    frequency_penalty := some (inp.frequency_penalty.getD 0)
    presence_penalty := some (inp.presence_penalty.getD 0)
    repetition_penalty := some (inp.repetition_penalty.getD 1)
    min_p := some (inp.min_p.getD 0)
    top_a := some (inp.top_a.getD 0)
    seed := inp.seed
    max_tokens := inp.max_tokens
    logit_bias := inp.logit_bias
    logprobs := inp.logprobs
    top_logprobs := inp.top_logprobs
    response_format := inp.response_format
    structured_outputs := inp.structured_outputs
    stop := inp.stop
    tools := inp.tools
    tool_choice := inp.tool_choice
    parallel_tool_calls := some (inp.parallel_tool_calls.getD true)
    verbosity := some (inp.verbosity.getD "medium")
    reasoning := inp.reasoning }

/-- `OpenRouterAPIParameters(**advanced_settings)`: raises a
`ValidationError` listing the offending fields, or returns the validated
model instance. -/
def validateParams (inp : ParamInput) :
    Except (List String) OpenRouterAPIParameters :=
  if validationErrors inp = [] then Except.ok (buildParams inp)
  else Except.error (validationErrors inp)

def keyIf (b : Bool) (name : String) : List String :=
  if b then [name] else []

/-- The keys of `params.model_dump(exclude_none=True)`: exactly the fields
whose validated value is not `None`, in declaration order. -/
def dumpKeys (p : OpenRouterAPIParameters) : List String :=
  keyIf p.temperature.isSome "temperature" ++
  keyIf p.top_p.isSome "top_p" ++
  keyIf p.top_k.isSome "top_k" ++
  keyIf p.frequency_penalty.isSome "frequency_penalty" ++
  keyIf p.presence_penalty.isSome "presence_penalty" ++
  keyIf p.repetition_penalty.isSome "repetition_penalty" ++
  keyIf p.min_p.isSome "min_p" ++
  keyIf p.top_a.isSome "top_a" ++
  keyIf p.seed.isSome "seed" ++
  keyIf p.max_tokens.isSome "max_tokens" ++
  keyIf p.logit_bias.isSome "logit_bias" ++
  keyIf p.logprobs.isSome "logprobs" ++
  keyIf p.top_logprobs.isSome "top_logprobs" ++
  keyIf p.response_format.isSome "response_format" ++
  keyIf p.structured_outputs.isSome "structured_outputs" ++
  keyIf p.stop.isSome "stop" ++
  keyIf p.tools.isSome "tools" ++
  keyIf p.tool_choice.isSome "tool_choice" ++
  keyIf p.parallel_tool_calls.isSome "parallel_tool_calls" ++
  keyIf p.verbosity.isSome "verbosity" ++
  keyIf p.reasoning.isSome "reasoning"

/-! ### The chat-request entry point (api.py 15-41)

Python lists are mutable heap objects; to state what `history.copy()`
protects, list values live in a small heap of cells and the function
receives a cell index, exactly as the Python function receives an object
reference. -/

/-- One chat message `{"role": ..., "content": ...}`. -/
structure Msg where
  role : String
  content : String
deriving DecidableEq

/-- The JSON body assembled for the POST: model, messages and the validated
sampling parameters merged in via `payload.update(...)`. -/
structure Payload where
  model : String
  messages : List Msg
  params : OpenRouterAPIParameters
deriving DecidableEq

/-- A heap of Python list objects (the message lists reachable from the
call). -/
structure PyListStore where
  cells : List (List Msg)
deriving DecidableEq

/-- Dereference a list object. -/
def PyListStore.get (σ : PyListStore) (r : Nat) : List Msg :=
  σ.cells.getD r []

/-- `history.copy()`: allocate a fresh cell holding the same elements and
return its index. -/
def PyListStore.alloc (σ : PyListStore) (v : List Msg) : PyListStore × Nat :=
  ({ cells := σ.cells ++ [v] }, σ.cells.length)

/-- In-place mutation of a list object, as by `messages.insert(0, ...)`. -/
def PyListStore.put (σ : PyListStore) (r : Nat) (v : List Msg) : PyListStore :=
  { cells := σ.cells.set r v }

/-- The outcome of `call_openrouter_api`: the heap after the call, the
returned `(text, role)` pair, and the request body that was POSTed
(`none` when validation failed before the request was sent). -/
structure CallResult where
  store : PyListStore
  text : String
  role : String
  sent : Option Payload
deriving DecidableEq

/-- api.py lines 21-22: `if advanced_settings.get("system_message"): messages.insert(0, ...)`
— prepend a system message to the `messages` cell when the setting is a
truthy (non-empty) string. -/
def sysPrepend (σ : PyListStore) (messages : Nat) (sm : Option String) : PyListStore :=
  match sm with
  | some m =>
      if m ≠ "" then
        σ.put messages ({ role := "system", content := m } :: σ.get messages)
      else σ
  | none => σ

/-- api.py lines 15-41, `call_openrouter_api`.  Copies the history list,
prepends a system message when `advanced_settings.get("system_message")` is
truthy (mutating only the fresh copy), validates the settings — returning a
`("Parameter Validation Error...", "error")` result *without* sending when
validation fails — and otherwise sends the payload; `resp` stands for the
black-box HTTP outcome (response content, or a request error). -/
def call_openrouter_api (σ : PyListStore) (api_key model_name : String)
    (history : Nat) (advanced_settings : ParamInput)
    (resp : Except String String) : CallResult :=
  let alloc := σ.alloc (σ.get history)
  let σ1 := alloc.1
  let messages := alloc.2
  let σ2 := sysPrepend σ1 messages advanced_settings.system_message
  match validateParams advanced_settings with
  | Except.error _ =>
      { store := σ2, text := "Parameter Validation Error", role := "error", sent := none }
  | Except.ok params =>
      let payload : Payload :=
        { model := model_name, messages := σ2.get messages, params := params }
      match resp with
      | Except.ok content =>
          { store := σ2, text := content, role := "assistant", sent := some payload }
      | Except.error e =>
          { store := σ2, text := e, role := "error", sent := some payload }

/-! ### Profile saving (gui.py 878-914) -/

/-- The extracted value of one profile form widget: a `tk.BooleanVar`, a
`Text` or `Entry` widget's stripped string, or a `ttk.Spinbox`'s stripped
string together with whether its `format` contains a dot (float) or not
(int). -/
inductive WVal
  | boolVar (b : Bool)
  | text (s : String)
  | entry (s : String)
  | spinF (s : String)
  | spinI (s : String)
deriving DecidableEq

/-- A value stored in a profile's settings dict. -/
inductive SVal
  | b (b : Bool)
  | s (s : String)
  | q (q : ℚ)
  | i (n : Int)
deriving DecidableEq

/-- Split a character run at the first `'.'`, if any. -/
def splitDot : List Char → List Char × Option (List Char)
  | [] => ([], none)
  | c :: rest =>
      if c = '.' then ([], some rest)
      else
        let r := splitDot rest
        (c :: r.1, r.2)

def parseNatDigits (cs : List Char) : Option Nat :=
  if cs ≠ [] ∧ cs.all Char.isDigit = true then some (digitsToNat cs) else none

/-- Python `int(s)` on the plain decimal subset (optional sign, digits);
anything else raises `ValueError`, i.e. `none`. -/
def parseIntPy (s : String) : Option Int :=
  match s.toList with
  | '-' :: rest => (parseNatDigits rest).map (fun n => -(n : Int))
  | cs => (parseNatDigits cs).map (fun n => (n : Int))

/-- Python `float(s)` on the plain decimal subset (optional sign, digits,
optional fractional part); anything else raises `ValueError`, i.e. `none`. -/
def parseFloatPy (s : String) : Option ℚ :=
  let core : List Char → Option ℚ := fun cs =>
    match splitDot cs with
    | (a, none) => (parseNatDigits a).map (fun n => (n : ℚ))
    | (a, some frac) =>
        match parseNatDigits a, parseNatDigits frac with
        | some n, some f => some ((n : ℚ) + (f : ℚ) / ((10 : ℚ) ^ frac.length))
        | _, _ => none
  match s.toList with
  | '-' :: rest => (core rest).map (fun q => -q)
  | cs => core cs

def isBoolVar : WVal → Bool
  | WVal.boolVar _ => true
  | _ => false

/-- gui.py 897-910: extract one widget's value and decide whether and how it
enters the settings dict.  Booleans are always stored; a non-empty string is
stored; a non-empty Spinbox string is coerced with `float`/`int` according
to the widget's format, and on `ValueError` the raw string is stored. -/
def storeField (key : String) (w : WVal) : List (String × SVal) :=
  match w with
  | WVal.boolVar b => [(key, SVal.b b)]
  | WVal.text s => if s ≠ "" then [(key, SVal.s s)] else []
  | WVal.entry s => if s ≠ "" then [(key, SVal.s s)] else []
  | WVal.spinF s =>
      if s ≠ "" then
        match parseFloatPy s with
        | some q => [(key, SVal.q q)]
        | none => [(key, SVal.s s)]
      else []
  | WVal.spinI s =>
      if s ≠ "" then
        match parseIntPy s with
        | some n => [(key, SVal.i n)]
        | none => [(key, SVal.s s)]
      else []

/-- gui.py 891-910: the settings dict built for a profile: the selected model
plus, for every field of `self.profile_entries` in order — skipping widgets
that are disabled and not `BooleanVar`s — whatever `storeField` yields.  No
schema validation is applied here. -/
def buildSettings (model_name : String) (fields : List (String × WVal × Bool)) :
    List (String × SVal) :=
  ("model", SVal.s model_name) ::
    fields.foldr
      (fun f acc =>
        if f.2.2 && !isBoolVar f.2.1 then acc else storeField f.1 f.2.1 ++ acc)
      []

/-- Python dict assignment `d[k] = v`: replace in place when the key exists
(keeping its position), else append. -/
def dictInsert (ps : List (String × List (String × SVal))) (k : String)
    (v : List (String × SVal)) : List (String × List (String × SVal)) :=
  if (ps.map Prod.fst).contains k then
    ps.map (fun p => if p.1 = k then (k, v) else p)
  else ps ++ [(k, v)]

def dropLeadingWS : List Char → List Char
  | [] => []
  | c :: rest => if c.isWhitespace then dropLeadingWS rest else c :: rest

/-- Python `str.strip()`: remove leading and trailing whitespace. -/
def pyStrip (s : String) : String :=
  String.mk ((dropLeadingWS (dropLeadingWS s.toList).reverse).reverse)

/-- The four exits of `add_llm_profile`: the two input-error warnings, the
declined overwrite confirmation, and a successful save. -/
inductive SaveOutcome
  | inputErrorName
  | inputErrorModel
  | cancelled
  | saved
deriving DecidableEq

/-- gui.py lines 878-914, `DesktopUtilitiesApp.add_llm_profile`: strip the
profile name, reject an empty name or an unselected model, ask for
confirmation before overwriting an existing profile, then store the settings
dict built by `buildSettings` under the name.  `fields` are the form widgets
with their disabled flags, `confirm_overwrite` is the user's answer to the
overwrite dialog. -/
def add_llm_profile (llm_profiles : List (String × List (String × SVal)))
    (name_entry model_name : String) (confirm_overwrite : Bool)
    (fields : List (String × WVal × Bool)) :
    List (String × List (String × SVal)) × SaveOutcome :=
  let profile_name := pyStrip name_entry
  if profile_name = "" then (llm_profiles, SaveOutcome.inputErrorName)
  else if model_name = "" ∨ model_name = "Select a model to see parameters" then
    (llm_profiles, SaveOutcome.inputErrorModel)
  else if (llm_profiles.map Prod.fst).contains profile_name = true ∧
      confirm_overwrite = false then
    (llm_profiles, SaveOutcome.cancelled)
  else
    (dictInsert llm_profiles profile_name (buildSettings model_name fields),
     SaveOutcome.saved)

/-! ### Claims about the CRUD operations, the validator and the API call -/

/-- C6: `add_shortcut` fails with the input error when the trigger or output
is empty and with the duplicate error when the trigger is already present,
leaving the table unchanged in both cases; for a non-empty, not-yet-present
trigger and non-empty output it succeeds and the table afterwards contains
the entry `(trigger, output, enabled = true)`. -/
theorem add_shortcut_contract (table : List (List Char × Shortcut))
    (t : List Char) (o : String) :
    (t = [] ∨ o = "" →
      add_shortcut table t o = (table, some AddShortcutError.inputError)) ∧
    (t ≠ [] → o ≠ "" → (table.map Prod.fst).contains t = true →
      add_shortcut table t o = (table, some AddShortcutError.duplicateError)) ∧
    (t ≠ [] → o ≠ "" → (table.map Prod.fst).contains t = false →
      add_shortcut table t o =
        (table ++ [(t, { output := o, enabled := true })], none) ∧
      (t, ({ output := o, enabled := true } : Shortcut)) ∈ (add_shortcut table t o).1) := by
  refine ⟨?_, ?_, ?_⟩
  · intro h
    unfold add_shortcut
    rw [if_pos h]
  · intro ht ho hdup
    unfold add_shortcut
    rw [if_neg (not_or.mpr ⟨ht, ho⟩), if_pos hdup]
  · intro ht ho hnew
    have hmain : add_shortcut table t o =
        (table ++ [(t, { output := o, enabled := true })], none) := by
      unfold add_shortcut
      rw [if_neg (not_or.mpr ⟨ht, ho⟩),
        if_neg (fun hc => Bool.false_ne_true (hnew ▸ hc))]
    refine ⟨hmain, ?_⟩
    rw [hmain]
    simp

theorem add_shortcut_contract_witness :
    add_shortcut [] ['b', 'r', 'b'] "be right back" =
      ([(['b', 'r', 'b'], { output := "be right back", enabled := true })], none) :=
  ((add_shortcut_contract [] ['b', 'r', 'b'] "be right back").2.2
    (by decide) (by decide) rfl).1

theorem checkRange_sound {name : String} {lo hi : ℚ} {o : Option ℚ}
    (h : checkRange name lo hi o = []) :
    ∀ q, o = some q → lo ≤ q ∧ q ≤ hi := by
  intro q hq
  rw [hq] at h
  simp only [checkRange] at h
  by_cases hc : lo ≤ q ∧ q ≤ hi
  · exact hc
  · rw [if_neg hc] at h
    cases h

theorem checkIntRange_sound {name : String} {lo hi : Int} {o : Option Int}
    (h : checkIntRange name lo hi o = []) :
    ∀ n, o = some n → lo ≤ n ∧ n ≤ hi := by
  intro n hn
  rw [hn] at h
  simp only [checkIntRange] at h
  by_cases hc : lo ≤ n ∧ n ≤ hi
  · exact hc
  · rw [if_neg hc] at h
    cases h

theorem checkEnum_sound {name : String} {o : Option String}
    (h : checkEnum name o = []) :
    ∀ v, o = some v → v = "low" ∨ v = "medium" ∨ v = "high" := by
  intro v hv
  rw [hv] at h
  simp only [checkEnum] at h
  by_cases hc : v = "low" ∨ v = "medium" ∨ v = "high"
  · exact hc
  · rw [if_neg hc] at h
    cases h

theorem validationErrors_nil_parts {inp : ParamInput}
    (h : validationErrors inp = []) :
    checkRange "temperature" 0 2 inp.temperature = [] ∧
    checkRange "top_p" 0 1 inp.top_p = [] ∧
    checkIntMin "top_k" 0 inp.top_k = [] ∧
    checkRange "frequency_penalty" (-2) 2 inp.frequency_penalty = [] ∧
    checkRange "presence_penalty" (-2) 2 inp.presence_penalty = [] ∧
    checkRange "repetition_penalty" 0 2 inp.repetition_penalty = [] ∧
    checkRange "min_p" 0 1 inp.min_p = [] ∧
    checkRange "top_a" 0 1 inp.top_a = [] ∧
    checkIntMin "max_tokens" 1 inp.max_tokens = [] ∧
    checkIntRange "top_logprobs" 0 20 inp.top_logprobs = [] ∧
    checkLiteralJson "response_format" inp.response_format = [] ∧
    checkToolChoice "tool_choice" inp.tool_choice = [] ∧
    checkEnum "verbosity" inp.verbosity = [] ∧
    checkEnum "reasoning" inp.reasoning = [] := by
  unfold validationErrors at h
  repeat rw [List.append_eq_nil] at h
  simp only [and_assoc] at h
  exact h

theorem validateParams_ok_elim {inp : ParamInput} {p : OpenRouterAPIParameters}
    (h : validateParams inp = Except.ok p) :
    validationErrors inp = [] ∧ p = buildParams inp := by
  by_cases he : validationErrors inp = []
  · refine ⟨he, ?_⟩
    unfold validateParams at h
    rw [if_pos he] at h
    exact (Except.ok.injEq .. ▸ h).symm
  · unfold validateParams at h
    rw [if_neg he] at h
    cases h

/-- C7: on success the validated payload satisfies every bound the claim
lists — temperature in [0,2], top_p in [0,1], both penalties in [-2,2],
top_logprobs in [0,20], verbosity and reasoning in {low, medium, high} —
and any candidate mapping violating one of them makes the pydantic
constructor raise, in which case `call_openrouter_api` returns the
validation-error outcome without sending any request. -/
theorem validator_enforces_bounds (inp : ParamInput) :
    (∀ p, validateParams inp = Except.ok p →
      (∀ q, p.temperature = some q → 0 ≤ q ∧ q ≤ 2) ∧
      (∀ q, p.top_p = some q → 0 ≤ q ∧ q ≤ 1) ∧
      (∀ q, p.frequency_penalty = some q → -2 ≤ q ∧ q ≤ 2) ∧
      (∀ q, p.presence_penalty = some q → -2 ≤ q ∧ q ≤ 2) ∧
      (∀ n, p.top_logprobs = some n → 0 ≤ n ∧ n ≤ 20) ∧
      (∀ v, p.verbosity = some v → v = "low" ∨ v = "medium" ∨ v = "high") ∧
      (∀ v, p.reasoning = some v → v = "low" ∨ v = "medium" ∨ v = "high")) ∧
    (((∃ q, inp.temperature = some q ∧ ¬(0 ≤ q ∧ q ≤ 2)) ∨
      (∃ q, inp.top_p = some q ∧ ¬(0 ≤ q ∧ q ≤ 1)) ∨
      (∃ q, inp.frequency_penalty = some q ∧ ¬(-2 ≤ q ∧ q ≤ 2)) ∨
      (∃ q, inp.presence_penalty = some q ∧ ¬(-2 ≤ q ∧ q ≤ 2)) ∨
      (∃ n, inp.top_logprobs = some n ∧ ¬(0 ≤ n ∧ n ≤ 20)) ∨
      (∃ v, inp.verbosity = some v ∧ ¬(v = "low" ∨ v = "medium" ∨ v = "high")) ∨
      (∃ v, inp.reasoning = some v ∧ ¬(v = "low" ∨ v = "medium" ∨ v = "high"))) →
      validateParams inp = Except.error (validationErrors inp) ∧
      (∀ σ ak mn h resp,
        (call_openrouter_api σ ak mn h inp resp).sent = none ∧
        (call_openrouter_api σ ak mn h inp resp).role = "error")) := by
  constructor
  · intro p hok
    obtain ⟨he, hp⟩ := validateParams_ok_elim hok
    subst hp
    obtain ⟨h1, h2, h3, h4, h5, h6, h7, h8, h9, h10, h11, h12, h13, h14⟩ :=
      validationErrors_nil_parts he
    refine ⟨?_, ?_, ?_, ?_, ?_, ?_, ?_⟩
    · intro q hq
      simp only [buildParams, Option.some.injEq] at hq
      cases hi : inp.temperature with
      | none => rw [hi] at hq; rw [← hq]; norm_num
      | some tv =>
          rw [hi] at hq
          rw [← hq]
          exact checkRange_sound h1 tv hi
    · intro q hq
      simp only [buildParams, Option.some.injEq] at hq
      cases hi : inp.top_p with
      | none => rw [hi] at hq; rw [← hq]; norm_num
      | some tv =>
          rw [hi] at hq
          rw [← hq]
          exact checkRange_sound h2 tv hi
    · intro q hq
      simp only [buildParams, Option.some.injEq] at hq
      cases hi : inp.frequency_penalty with
      | none => rw [hi] at hq; rw [← hq]; norm_num
      | some tv =>
          rw [hi] at hq
          rw [← hq]
          exact checkRange_sound h4 tv hi
    · intro q hq
      simp only [buildParams, Option.some.injEq] at hq
      cases hi : inp.presence_penalty with
      | none => rw [hi] at hq; rw [← hq]; norm_num
      | some tv =>
          rw [hi] at hq
          rw [← hq]
          exact checkRange_sound h5 tv hi
    · intro n hn
      simp only [buildParams] at hn
      exact checkIntRange_sound h10 n hn
    · intro v hv
      simp only [buildParams, Option.some.injEq] at hv
      cases hi : inp.verbosity with
      | none => rw [hi] at hv; right; left; exact hv.symm
      | some vv =>
          rw [hi] at hv
          rw [← hv]
          exact checkEnum_sound h13 vv hi
    · intro v hv
      simp only [buildParams] at hv
      exact checkEnum_sound h14 v hv
  · intro hviol
    have hne : validationErrors inp ≠ [] := by
      intro he
      obtain ⟨h1, h2, h3, h4, h5, h6, h7, h8, h9, h10, h11, h12, h13, h14⟩ :=
        validationErrors_nil_parts he
      rcases hviol with hv | hv | hv | hv | hv | hv | hv
      · obtain ⟨q, hq, hb⟩ := hv
        exact hb (checkRange_sound h1 q hq)
      · obtain ⟨q, hq, hb⟩ := hv
        exact hb (checkRange_sound h2 q hq)
      · obtain ⟨q, hq, hb⟩ := hv
        exact hb (checkRange_sound h4 q hq)
      · obtain ⟨q, hq, hb⟩ := hv
        exact hb (checkRange_sound h5 q hq)
      · obtain ⟨n, hn, hb⟩ := hv
        exact hb (checkIntRange_sound h10 n hn)
      · obtain ⟨v, hv', hb⟩ := hv
        exact hb (checkEnum_sound h13 v hv')
      · obtain ⟨v, hv', hb⟩ := hv
        exact hb (checkEnum_sound h14 v hv')
    have herr : validateParams inp = Except.error (validationErrors inp) := by
      unfold validateParams
      rw [if_neg hne]
    refine ⟨herr, ?_⟩
    intro σ ak mn h resp
    simp [call_openrouter_api, herr]

theorem validator_enforces_bounds_witness :
    validateParams { temperature := some 5 } =
      Except.error (validationErrors { temperature := some 5 }) ∧
    (call_openrouter_api { cells := [[]] } "key" "model" 0
        { temperature := some 5 } (Except.ok "resp")).sent = none :=
  ⟨((validator_enforces_bounds { temperature := some 5 }).2
      (Or.inl ⟨5, rfl, by norm_num⟩)).1,
   (((validator_enforces_bounds { temperature := some 5 }).2
      (Or.inl ⟨5, rfl, by norm_num⟩)).2 { cells := [[]] } "key" "model" 0
      (Except.ok "resp")).1⟩

theorem mem_keyIf {x name : String} {b : Bool} :
    x ∈ keyIf b name ↔ b = true ∧ x = name := by
  cases b <;> simp [keyIf]

/-- C8 counterexample: an empty candidate settings mapping — one that
mentions none of temperature, top_p, top_k, repetition_penalty,
parallel_tool_calls or verbosity — validates successfully, yet the dumped
payload produced with `exclude_none=True` still contains keys for all six of
these parameters, because their pydantic defaults are not `None`. -/
theorem unset_defaults_still_dumped_cex :
    validateParams {} = Except.ok (buildParams {}) ∧
    "temperature" ∈ dumpKeys (buildParams {}) ∧
    "top_p" ∈ dumpKeys (buildParams {}) ∧
    "top_k" ∈ dumpKeys (buildParams {}) ∧
    "repetition_penalty" ∈ dumpKeys (buildParams {}) ∧
    "parallel_tool_calls" ∈ dumpKeys (buildParams {}) ∧
    "verbosity" ∈ dumpKeys (buildParams {}) := by
  refine ⟨rfl, ?_, ?_, ?_, ?_, ?_, ?_⟩ <;> decide

/-- C8 amended: in the validated payload dumped with `exclude_none=True`,
an optional parameter that is unset in the input is omitted exactly when its
declared default is `None` (seed, max_tokens, logit_bias, logprobs,
top_logprobs, response_format, structured_outputs, stop, tools, tool_choice,
reasoning); the parameters with non-`None` defaults (temperature, top_p,
top_k, frequency_penalty, presence_penalty, repetition_penalty, min_p,
top_a, parallel_tool_calls, verbosity) always appear in the payload, with
their default values when unset. -/
theorem exclude_none_omission (inp : ParamInput) (p : OpenRouterAPIParameters)
    (hok : validateParams inp = Except.ok p) :
    (inp.seed = none → "seed" ∉ dumpKeys p) ∧
    (inp.max_tokens = none → "max_tokens" ∉ dumpKeys p) ∧
    (inp.logit_bias = none → "logit_bias" ∉ dumpKeys p) ∧
    (inp.logprobs = none → "logprobs" ∉ dumpKeys p) ∧
    (inp.top_logprobs = none → "top_logprobs" ∉ dumpKeys p) ∧
    (inp.response_format = none → "response_format" ∉ dumpKeys p) ∧
    (inp.structured_outputs = none → "structured_outputs" ∉ dumpKeys p) ∧
    (inp.stop = none → "stop" ∉ dumpKeys p) ∧
    (inp.tools = none → "tools" ∉ dumpKeys p) ∧
    (inp.tool_choice = none → "tool_choice" ∉ dumpKeys p) ∧
    (inp.reasoning = none → "reasoning" ∉ dumpKeys p) ∧
    "temperature" ∈ dumpKeys p ∧
    "top_p" ∈ dumpKeys p ∧
    "top_k" ∈ dumpKeys p ∧
    "frequency_penalty" ∈ dumpKeys p ∧
    "presence_penalty" ∈ dumpKeys p ∧
    "repetition_penalty" ∈ dumpKeys p ∧
    "min_p" ∈ dumpKeys p ∧
    "top_a" ∈ dumpKeys p ∧
    "parallel_tool_calls" ∈ dumpKeys p ∧
    "verbosity" ∈ dumpKeys p := by
  obtain ⟨-, hp⟩ := validateParams_ok_elim hok
  subst hp
  refine ⟨?_, ?_, ?_, ?_, ?_, ?_, ?_, ?_, ?_, ?_, ?_, ?_, ?_, ?_, ?_, ?_, ?_, ?_, ?_, ?_, ?_⟩ <;>
    first
      | (intro hnone
         simp [dumpKeys, mem_keyIf, buildParams, hnone])
      | simp [dumpKeys, mem_keyIf, buildParams]

theorem exclude_none_omission_witness :
    "seed" ∉ dumpKeys (buildParams {}) :=
  (exclude_none_omission {} (buildParams {}) rfl).1 rfl

theorem parseFloatPy_five : parseFloatPy "5.0" = some (5 : ℚ) := by
  have hr : parseFloatPy "5.0" =
      some (((5 : ℕ) : ℚ) + ((0 : ℕ) : ℚ) / (10 : ℚ) ^ (['0'] : List Char).length) := rfl
  rw [hr]
  norm_num

/-- C9 counterexample: saving a profile whose temperature field reads 5.0 —
outside the schema bound `temperature ≤ 2`, as the validator's rejection of
the same value shows — succeeds: `add_llm_profile` stores the coerced value
and changes the profile store, raising no validation error at save time. -/
theorem profile_save_skips_validation_cex :
    add_llm_profile [] "p" "m" true [("temperature", WVal.spinF "5.0", false)] =
      ([("p", [("model", SVal.s "m"), ("temperature", SVal.q 5)])],
       SaveOutcome.saved) ∧
    validateParams { temperature := some 5 } = Except.error ["temperature"] := by
  constructor
  · have hps : pyStrip "p" = "p" := rfl
    simp [add_llm_profile, hps, dictInsert, buildSettings, storeField, isBoolVar,
      parseFloatPy_five]
  · have hv : ¬((5 : ℚ) ≤ 2) := by norm_num
    simp [validateParams, validationErrors, checkRange, checkIntMin, checkIntRange,
      checkEnum, checkLiteralJson, checkToolChoice, hv]

/-- C9 amended: no schema validation happens when persisting a profile —
whenever the name, model and overwrite checks pass, `add_llm_profile` saves
the coerced settings unchanged, for every field assignment including ones
that violate the parameter schema; the schema validator runs only inside
`call_openrouter_api`, immediately before the outbound request, where a
failure aborts the send. -/
theorem profile_save_no_validation (profiles : List (String × List (String × SVal)))
    (name model_name : String) (confirm : Bool)
    (fields : List (String × WVal × Bool))
    (hn : pyStrip name ≠ "")
    (hm : ¬(model_name = "" ∨ model_name = "Select a model to see parameters"))
    (hc : ¬((profiles.map Prod.fst).contains (pyStrip name) = true ∧
        confirm = false)) :
    add_llm_profile profiles name model_name confirm fields =
      (dictInsert profiles (pyStrip name) (buildSettings model_name fields),
       SaveOutcome.saved) ∧
    (∀ inp : ParamInput, validateParams inp = Except.error (validationErrors inp) →
      ∀ σ ak mn h resp, (call_openrouter_api σ ak mn h inp resp).sent = none) := by
  constructor
  · simp only [add_llm_profile]
    rw [if_neg hn, if_neg hm, if_neg hc]
  · intro inp hval σ ak mn h resp
    simp [call_openrouter_api, hval]

theorem profile_save_no_validation_witness :
    add_llm_profile [] "p" "m" true [] =
      (dictInsert [] (pyStrip "p") (buildSettings "m" []), SaveOutcome.saved) :=
  (profile_save_no_validation [] "p" "m" true [] (by decide) (by decide)
    (by decide)).1

theorem sysPrepend_get_of_ne (σ : PyListStore) (r idx : Nat) (sm : Option String)
    (hne : r ≠ idx) : (sysPrepend σ r sm).get idx = σ.get idx := by
  cases sm with
  | none => rfl
  | some m =>
      by_cases hm : m ≠ ""
      · simp only [sysPrepend]
        rw [if_pos hm]
        simp only [PyListStore.put, PyListStore.get]
        rw [List.getD_eq_getElem?_getD, List.getElem?_set_ne hne,
          ← List.getD_eq_getElem?_getD]
      · simp only [sysPrepend]
        rw [if_neg hm]

theorem call_openrouter_api_store (σ : PyListStore) (ak mn : String) (h : Nat)
    (adv : ParamInput) (resp : Except String String) :
    (call_openrouter_api σ ak mn h adv resp).store =
      sysPrepend (σ.alloc (σ.get h)).1 (σ.alloc (σ.get h)).2 adv.system_message := by
  unfold call_openrouter_api
  cases validateParams adv with
  | error e => rfl
  | ok params =>
      cases resp with
      | ok c => rfl
      | error e => rfl

/-- C10: `call_openrouter_api` never mutates the caller's history list: it
copies the list before optionally prepending the system message, so for every
valid history reference, settings and response outcome (success, request
error, or validation error), the history cell holds exactly the same
elements after the call as before. -/
theorem history_not_mutated (σ : PyListStore) (ak mn : String) (h : Nat)
    (adv : ParamInput) (resp : Except String String)
    (hh : h < σ.cells.length) :
    (call_openrouter_api σ ak mn h adv resp).store.get h = σ.get h := by
  rw [call_openrouter_api_store]
  have hne : (σ.alloc (σ.get h)).2 ≠ h := by
    simp only [PyListStore.alloc]
    exact (Nat.ne_of_lt hh).symm
  rw [sysPrepend_get_of_ne _ _ _ _ hne]
  simp only [PyListStore.alloc, PyListStore.get]
  exact List.getD_append _ _ _ _ hh

theorem history_not_mutated_witness :
    (call_openrouter_api { cells := [[{ role := "user", content := "hi" }]] }
        "key" "model" 0 { system_message := some "sys" }
        (Except.ok "resp")).store.get 0 =
      PyListStore.get { cells := [[{ role := "user", content := "hi" }]] } 0 :=
  history_not_mutated { cells := [[{ role := "user", content := "hi" }]] }
    "key" "model" 0 { system_message := some "sys" } (Except.ok "resp")
    (by decide)
